import Mathlib

/-!
Shallow embedding of the feature-extraction and inference-dispatch core of
src/model.py (a Streamlit phishing-detection demo).  Python strings are
modelled as Lean strings, with the relevant str operations re-implemented
over the underlying character lists; numeric feature values are rationals
(every value the code produces is integer-valued, so the embedding is exact).
Models are opaque external artifacts: dispatch is parameterised over an
arbitrary predict function, fallible predict calls over an Except-valued one.
-/

namespace Phishing

/-- Python str.count for the one-character needle ".": number of occurrences. -/
def pyCountDot (s : String) : Nat :=
  s.toList.countP (fun c => c = '.')

/-- Python str.count for the needle "//": counts non-overlapping occurrences
scanning left to right. -/
def countDoubleSlash : List Char → Nat
  | '/' :: '/' :: rest => countDoubleSlash rest + 1
  | _ :: rest => countDoubleSlash rest
  | [] => 0

/-- Python "c in s" membership for a single character. -/
def pyContains (s : String) (c : Char) : Bool :=
  s.toList.contains c

/-- Python str.startswith on the raw string. -/
def pyStartsWith (s pat : String) : Bool :=
  pat.toList.isPrefixOf s.toList

/-- Python str.split with a one-character separator: splits at every
occurrence, keeping empty segments; the empty string yields one empty
segment. -/
def splitOnChar (sep : Char) : List Char → List (List Char)
  | [] => [[]]
  | c :: rest =>
    let r := splitOnChar sep rest
    if c = sep then [] :: r
    else
      match r with
      | h :: t => (c :: h) :: t
      | [] => [[c]]

/-- Characters Python str.strip removes by default (whitespace). -/
def pyWhitespace (c : Char) : Bool :=
  c = ' ' || c = '\t' || c = '\n' || c = '\r' || c = '\x0B' || c = '\x0C'

/-- Python str.strip: drop leading and trailing whitespace. -/
def pyStrip (s : String) : String :=
  ⟨((s.toList.dropWhile pyWhitespace).reverse.dropWhile pyWhitespace).reverse⟩

/-- One step of the regex group "\d{1,3}\.": consume one to three digits
followed by a literal dot.  Greedy matching with backtracking is
deterministic here: the characters consumed are exactly the maximal leading
digit run (which must have length 1..3) and the dot after it. -/
def octetDot (cs : List Char) : Option (List Char) :=
  let ds := cs.takeWhile Char.isDigit
  let rest := cs.dropWhile Char.isDigit
  if 1 ≤ ds.length ∧ ds.length ≤ 3 then
    match rest with
    | '.' :: t => some t
    | _ => none
  else none

/-- The optional scheme group "(http[s]?://)?" of the IP regex: consume a
literal "https://" or "http://" when present.  When either literal matches,
the regex cannot succeed on the unconsumed alternative (the next character
would have to be a digit), so committing is faithful to backtracking. -/
def dropScheme (cs : List Char) : List Char :=
  if cs.take 8 = "https://".toList then cs.drop 8
  else if cs.take 7 = "http://".toList then cs.drop 7
  else cs

/-- Python re.match of the anchored pattern
"^(http[s]?://)?(\d{1,3}\.){3}\d{1,3}" used for has_ip_address: an optional
scheme, three octet-dot groups, then at least one digit (a prefix match, so
"\d{1,3}" at the end just needs one digit). -/
def ipMatch (url : String) : Bool :=
  match octetDot (dropScheme url.toList) with
  | none => false
  | some c1 =>
    match octetDot c1 with
    | none => false
    | some c2 =>
      match octetDot c2 with
      | none => false
      | some c3 =>
        match c3 with
        | c :: _ => c.isDigit
        | [] => false

/-- Line 43 of src/model.py: 1 if len(url.split("/")) > 2 and "-" occurs in
url.split("/")[2], else 0. -/
def hyphenInThirdSegment (url : String) : Bool :=
  match splitOnChar '/' url.toList with
  | _ :: _ :: seg :: _ => seg.contains '-'
  | _ => false

/-- The dictionary returned by extract_features_from_url (src/model.py lines
36-47).  Note the dict has nine keys: domain_age is not among them; callers
insert a constant 0.0 for it when assembling the vector. -/
structure UrlFeatures where
  url_length : ℚ
  has_ip_address : ℕ
  https : ℕ
  has_at_symbol : ℕ
  redirects : ℕ
  prefix_suffix : ℕ
  sfh : ℚ
  subdomains_count : ℤ
  popup_window : ℕ
deriving Repr, DecidableEq

/-- src/model.py lines 36-47.  Field by field:
url_length = float(len(url)); has_ip_address from the anchored regex;
https = url.startswith("https"); has_at_symbol from "@" membership;
redirects = max(0, url.count("//") - 1) (truncated subtraction on Nat);
prefix_suffix from the guarded third slash-segment; sfh = 0.0 (a constant);
subdomains_count = int(url.count(".") - 1) (can be negative);
popup_window = 0. -/
def extract_features_from_url (url : String) : UrlFeatures where
  url_length := (url.toList.length : ℚ)
  has_ip_address := if ipMatch url then 1 else 0
  https := if pyStartsWith url "https" then 1 else 0
  has_at_symbol := if pyContains url '@' then 1 else 0
  redirects := countDoubleSlash url.toList - 1
  prefix_suffix := if hyphenInThirdSegment url then 1 else 0
  sfh := 0
  subdomains_count := (pyCountDot url : ℤ) - 1
  popup_window := 0

/-- src/model.py lines 152-163: the Use Case 1 URL-path vector, assembled
from the extracted dict in the fixed ten-slot order with a constant 0.0
spliced in at the domain_age slot, then astype(float). -/
def featuresArr (url : String) : List ℚ :=
  let e := extract_features_from_url url
  [e.url_length, (e.has_ip_address : ℚ), (e.https : ℚ), 0,
   (e.has_at_symbol : ℚ), (e.redirects : ℚ), (e.prefix_suffix : ℚ),
   e.sfh, (e.subdomains_count : ℚ), (e.popup_window : ℚ)]

/-- src/model.py lines 183-186: the manual-entry vector, the ten user-entered
scalars in the same fixed order, astype(float). -/
def manualFeaturesArr (url_length has_ip_address https domain_age
    has_at_symbol redirects prefix_suffix sfh subdomains_count
    popup_window : ℚ) : List ℚ :=
  [url_length, has_ip_address, https, domain_age, has_at_symbol,
   redirects, prefix_suffix, sfh, subdomains_count, popup_window]

/-- src/model.py lines 196-201: the Use Case 3 (domain-age regressor) input,
a four-element sub-vector of the extracted features. -/
def domainAgeX (url : String) : List ℚ :=
  let e := extract_features_from_url url
  [e.url_length, (e.subdomains_count : ℚ), (e.redirects : ℚ), (e.https : ℚ)]

/-- src/model.py lines 227-238: the Use Case 2 / Use Case 4 input vector,
assembled exactly like the Use Case 1 URL-path vector. -/
def xInputArr (url : String) : List ℚ :=
  let e := extract_features_from_url url
  [e.url_length, (e.has_ip_address : ℚ), (e.https : ℚ), 0,
   (e.has_at_symbol : ℚ), (e.redirects : ℚ), (e.prefix_suffix : ℚ),
   e.sfh, (e.subdomains_count : ℚ), (e.popup_window : ℚ)]

/-- src/model.py line 166 (URL path): the prediction is the model applied to
the assembled vector; the model is an opaque external artifact, here an
arbitrary function. -/
def uc1PredictUrl (predict : List ℚ → ℚ) (url : String) : ℚ :=
  predict (featuresArr url)

/-- src/model.py line 189 (manual path): the prediction is the same model
applied to the manually assembled vector. -/
def uc1PredictManual (predict : List ℚ → ℚ) (url_length has_ip_address https
    domain_age has_at_symbol redirects prefix_suffix sfh subdomains_count
    popup_window : ℚ) : ℚ :=
  predict (manualFeaturesArr url_length has_ip_address https domain_age
    has_at_symbol redirects prefix_suffix sfh subdomains_count popup_window)

/-- src/model.py lines 165-167 with a fallible model: pred =
model.predict(features_arr) stands inside no try/except, so the outcome of
the submission is whatever the predict call returns, error included. -/
def uc1DispatchE (predict : List ℚ → Except String ℚ) (url : String) :
    Except String ℚ :=
  predict (featuresArr url)

/-- src/model.py lines 147-163: the Use Case 1 URL-path button handler.
none models the blank-input branch (a warning, no extraction and no model
call); some r models a completed model call with result r. -/
def uc1UrlSubmit (predict : List ℚ → ℚ) (input_url : String) : Option ℚ :=
  if pyStrip input_url = "" then none
  else some (predict (featuresArr input_url))

/-- src/model.py lines 193-203: the Use Case 3 button handler has no blank
check; it always extracts and calls the model. -/
def uc3Submit (predict : List ℚ → ℚ) (input_url : String) : Option ℚ :=
  some (predict (domainAgeX input_url))

/-- src/model.py lines 224-241: the Use Case 2 and Use Case 4 button handler
likewise has no blank check. -/
def uc2or4Submit (predict : List ℚ → ℚ) (input_url : String) : Option ℚ :=
  some (predict (xInputArr input_url))

/-- Substring occurrence test over character lists, for the spec-side
definitions below. -/
def hasSubstr (pat : List Char) : List Char → Bool
  | [] => pat.isEmpty
  | c :: rest => pat.isPrefixOf (c :: rest) || hasSubstr pat rest

/-- Modelled from the spec, for comparison with the code: sfh is 1.0 when
any of the keywords login, secure, verify, update occurs in the lowercased
URL, else 0.0. -/
def specSfh (url : String) : ℚ :=
  let low := url.toList.map Char.toLower
  if hasSubstr "login".toList low || hasSubstr "secure".toList low ||
     hasSubstr "verify".toList low || hasSubstr "update".toList low
  then 1 else 0

/-- Modelled from the spec, for comparison with the code: under standard
URL parsing a string with no "://" separator has no scheme at all. -/
def specSchemeMissing (url : String) : Bool :=
  ! hasSubstr "://".toList url.toList

/-- Claim C1, counterexample: in "http://192.168.1.1/login" the keyword
login occurs in the lowercased URL (the spec-side rule fires), yet the
extracted sfh is 0, not the claimed 1.0. -/
theorem c1_sfh_counterexample :
    specSfh "http://192.168.1.1/login" = 1 ∧
    (extract_features_from_url "http://192.168.1.1/login").sfh = 0 := by
  exact ⟨by decide, by decide⟩

/-- Claim C1, amended: the extracted sfh field is the constant 0.0 for every
input URL string, whatever keywords the URL contains. -/
theorem c1_sfh_constant_zero (url : String) :
    (extract_features_from_url url).sfh = 0 := rfl

/-- Claim C2, code evaluated at the failing input: for the dotless input
"localhost" the extractor yields subdomains_count = -1, a negative value. -/
theorem c2_subdomains_negative_at_failing_input :
    (extract_features_from_url "localhost").subdomains_count = -1 := by decide

/-- Claim C3: for every input string the assembled feature vector has
exactly ten entries, and each position holds the documented field (position
3 is the constant 0.0 domain_age slot). -/
theorem c3_vector_has_ten_elements (url : String) :
    (featuresArr url).length = 10 ∧
    (featuresArr url).get? 0 = some (extract_features_from_url url).url_length ∧
    (featuresArr url).get? 1 = some ((extract_features_from_url url).has_ip_address : ℚ) ∧
    (featuresArr url).get? 2 = some ((extract_features_from_url url).https : ℚ) ∧
    (featuresArr url).get? 3 = some 0 ∧
    (featuresArr url).get? 4 = some ((extract_features_from_url url).has_at_symbol : ℚ) ∧
    (featuresArr url).get? 5 = some ((extract_features_from_url url).redirects : ℚ) ∧
    (featuresArr url).get? 6 = some ((extract_features_from_url url).prefix_suffix : ℚ) ∧
    (featuresArr url).get? 7 = some (extract_features_from_url url).sfh ∧
    (featuresArr url).get? 8 = some ((extract_features_from_url url).subdomains_count : ℚ) ∧
    (featuresArr url).get? 9 = some ((extract_features_from_url url).popup_window : ℚ) :=
  ⟨rfl, rfl, rfl, rfl, rfl, rfl, rfl, rfl, rfl, rfl, rfl⟩

/-- Claim C5, counterexample: the predict call stands inside no handler, so
the specific underlying error is itself the outcome of the submission — a
shape-mismatch error and a type error each propagate verbatim instead of
being caught and replaced by one generic prediction error. -/
theorem c5_error_propagates_counterexample :
    uc1DispatchE (fun _ => Except.error "shape mismatch") "https://example.com"
      = Except.error "shape mismatch" ∧
    uc1DispatchE (fun _ => Except.error "type error") "https://example.com"
      = Except.error "type error" :=
  ⟨rfl, rfl⟩

/-- Claim C5, amended: no handler exists around the model call — whenever
predict on the assembled vector returns an error, that very error is the
result of the dispatch; the code reports no generic prediction error, and
recovery is left to the hosting framework. -/
theorem c5_no_handler_error_propagates
    (predict : List ℚ → Except String ℚ) (url : String) (e : String)
    (h : predict (featuresArr url) = Except.error e) :
    uc1DispatchE predict url = Except.error e := h

/-- Witness for c5_no_handler_error_propagates at a concrete model and URL. -/
theorem c5_no_handler_error_propagates_witness :
    uc1DispatchE (fun _ => Except.error "boom") "http://x"
      = Except.error "boom" :=
  c5_no_handler_error_propagates (fun _ => Except.error "boom") "http://x"
    "boom" rfl

/-- Claim C6, counterexample: "httpsevil.com" contains no scheme separator
at all, yet the extracted https flag is 1. -/
theorem c6_https_counterexample :
    specSchemeMissing "httpsevil.com" = true ∧
    (extract_features_from_url "httpsevil.com").https = 1 := by
  exact ⟨by decide, by decide⟩

/-- Claim C6, amended: the https flag is 1 exactly when the raw URL string
begins with the literal prefix https — so every https-scheme URL gets 1,
but so does a scheme-less string such as httpsevil.com. -/
theorem c6_https_iff_literal_prefix (url : String) :
    (extract_features_from_url url).https = 1 ↔
      pyStartsWith url "https" = true := by
  unfold extract_features_from_url
  cases h : pyStartsWith url "https" <;> simp [h]

/-- Claim C7, code evaluated at the failing input: on the no-path, dotless
input "host" extraction completes (the guarded split never indexes out of
bounds in the embedding) with prefix_suffix = 0 as claimed, but
subdomains_count is -1 rather than 0. -/
theorem c7_no_path_evaluation :
    (extract_features_from_url "host").prefix_suffix = 0 ∧
    (extract_features_from_url "host").subdomains_count = -1 := by
  exact ⟨by decide, by decide⟩

/-- Claim C8: once the assembled vectors coincide, the URL path and the
manual path hand the same input to the same model, hence produce the same
prediction. -/
theorem c8_url_and_manual_paths_agree (predict : List ℚ → ℚ) (url : String)
    (v1 v2 v3 v4 v5 v6 v7 v8 v9 v10 : ℚ)
    (h : featuresArr url = manualFeaturesArr v1 v2 v3 v4 v5 v6 v7 v8 v9 v10) :
    uc1PredictUrl predict url
      = uc1PredictManual predict v1 v2 v3 v4 v5 v6 v7 v8 v9 v10 := by
  unfold uc1PredictUrl uc1PredictManual
  rw [h]

/-- Witness for c8_url_and_manual_paths_agree at a concrete model, URL and
matching manual values. -/
theorem c8_url_and_manual_paths_agree_witness :
    uc1PredictUrl (fun v => v.headD 0) "https://example.com"
      = uc1PredictManual (fun v => v.headD 0) 19 0 1 0 0 0 0 0 0 0 :=
  c8_url_and_manual_paths_agree (fun v => v.headD 0) "https://example.com"
    19 0 1 0 0 0 0 0 0 0 (by decide)

/-- Claim C9: the domain-age dispatch calls predict with exactly the
four-element sub-vector url_length, subdomains_count, redirects, https in
that order — a four-element list, not the ten-element vector. -/
theorem c9_domain_age_subvector (predict : List ℚ → ℚ) (url : String) :
    uc3Submit predict url
      = some (predict [(extract_features_from_url url).url_length,
          ((extract_features_from_url url).subdomains_count : ℚ),
          ((extract_features_from_url url).redirects : ℚ),
          ((extract_features_from_url url).https : ℚ)]) ∧
    (domainAgeX url).length = 4 ∧
    (featuresArr url).length = 10 :=
  ⟨rfl, rfl, rfl⟩

/-- Claim C10: when the stripped URL is blank, the Use Case 1 URL path warns
and makes no model call, while the Use Case 3 and Use Case 2/4 paths still
call the model; in particular on the empty string Use Case 3 runs
extraction and forwards the vector 0, -1, 0, 0 to the model. -/
theorem c10_only_uc1_rejects_blank (predict : List ℚ → ℚ) (url : String)
    (h : pyStrip url = "") :
    uc1UrlSubmit predict url = none ∧
    (uc3Submit predict url).isSome = true ∧
    (uc2or4Submit predict url).isSome = true ∧
    uc3Submit predict "" = some (predict [0, -1, 0, 0]) := by
  refine ⟨?_, rfl, rfl, ?_⟩
  · unfold uc1UrlSubmit
    simp [h]
  · have hx : domainAgeX "" = [0, -1, 0, 0] := by decide
    unfold uc3Submit
    rw [hx]

/-- Witness for c10_only_uc1_rejects_blank at a concrete model and a
whitespace-only URL. -/
theorem c10_only_uc1_rejects_blank_witness :
    uc1UrlSubmit (fun v => v.headD 0) "  " = none ∧
    (uc3Submit (fun v => v.headD 0) "  ").isSome = true ∧
    (uc2or4Submit (fun v => v.headD 0) "  ").isSome = true ∧
    uc3Submit (fun v => v.headD 0) ""
      = some ((fun v => v.headD 0) [0, -1, 0, 0]) :=
  c10_only_uc1_rejects_blank (fun v => v.headD 0) "  " (by decide)

end Phishing
